import Mathlib

set_option autoImplicit false

namespace SnowDiscoveryAgent

/-
Shallow embedding of the snow-discovery-agent repository (Python) in Lean 4.

Conventions used throughout this development:
* ServiceNow wire records are JSON objects whose field values arrive as
  strings through the Table API; they are modelled as association lists
  `List (String × String)` unless a claim needs richer JSON.
* Python `float` arithmetic in the analytics code is modelled by exact
  rational arithmetic (`ℚ`); at every concrete input used below the two
  agree, and `int(x)` (truncation toward zero) applied to the non-negative
  quantities occurring in the code is modelled by `Int.floor`.
* Python exceptions that a function raises are modelled by `Except` /
  `Option` return values.
-/

/-! ### Basic string machinery (Python `in`, `.lower()`, `.strip()`) -/

/-- Boolean test that the pattern (first argument) is a leading run of the
text (second argument); helper for substring containment. -/
def charsLeadWith : List Char → List Char → Bool
  | [], _ => true
  | _ :: _, [] => false
  | p :: ps, c :: cs => p == c && charsLeadWith ps cs

/-- Boolean substring containment on character lists: does the text (first
argument) contain the pattern (second argument) as a contiguous run?  This
models the Python expression `pat in text` on `str`. -/
def containsChars : List Char → List Char → Bool
  | [], pat => pat.isEmpty
  | c :: cs, pat => charsLeadWith pat (c :: cs) || containsChars cs pat

/-- Python `pat in s` for strings. -/
def strContains (s pat : String) : Bool :=
  containsChars s.toList pat.toList

/-- ASCII lowercase of one character, as CPython `str.lower` acts on the
ASCII field names and keyword lists appearing in this repository. -/
def lowerChar (c : Char) : Char :=
  if 'A' ≤ c ∧ c ≤ 'Z' then Char.ofNat (c.toNat + 32) else c

/-- Python `s.lower()` (ASCII fragment). -/
def strLower (s : String) : String :=
  String.mk (s.toList.map lowerChar)

/-- Whitespace characters removed by Python `str.strip()` (ASCII fragment). -/
def pyIsSpace (c : Char) : Bool :=
  c == ' ' || c == '\t' || c == '\n' || c == '\r' || c == '\x0b' || c == '\x0c'

/-- Helper dropping leading Python whitespace from a character list. -/
def dropLeadingSpace : List Char → List Char
  | [] => []
  | c :: cs => if pyIsSpace c then dropLeadingSpace cs else c :: cs

/-- Python `s.strip()`: drop leading and trailing whitespace. -/
def pyStrip (s : String) : String :=
  String.mk ((dropLeadingSpace (dropLeadingSpace s.toList.reverse).reverse))

/-! ### C1 — credential secret stripping
Source: `src/snow_discovery_agent/tools/credentials.py` and the
`DiscoveryCredential` model in `src/snow_discovery_agent/models.py`. -/

/-- A raw ServiceNow record: field name to (string) value, in wire order. -/
abbrev Record := List (String × String)

/-- First value stored under a key, mirroring Python `dict` lookup. -/
def lookupRec (r : Record) (k : String) : Option String :=
  match r with
  | [] => none
  | (k₀, v) :: rest => if k₀ = k then some v else lookupRec rest k

/-- The `SAFE_FIELDS` allow-list from `tools/credentials.py`. -/
def SAFE_FIELDS : List String :=
  ["sys_id", "name", "type", "active", "tag", "order", "affinity"]

/-- The `SECRET_FIELD_PATTERNS` blacklist from `tools/credentials.py`. -/
def SECRET_FIELD_PATTERNS : List String :=
  ["password", "secret", "private_key", "ssh_private", "community",
   "passphrase", "token", "credential", "auth_key", "key_file", "pem",
   "cert_body"]

/-- Translation of `_is_secret_field`: the lowercased field name contains one
of the blacklisted substrings. -/
def is_secret_field (fieldName : String) : Bool :=
  SECRET_FIELD_PATTERNS.any (fun pattern => strContains (strLower fieldName) pattern)

/-- Translation of `_strip_secrets`: keep a field when it is on the
allow-list or does not match a secret pattern. -/
def strip_secrets (record : Record) : Record :=
  record.filter (fun kv => SAFE_FIELDS.contains kv.1 || !is_secret_field kv.1)

/-- Translation of `models._coerce_bool` restricted to string wire values. -/
def coerce_bool (value : String) : Bool :=
  ["true", "1", "yes"].contains (strLower value)

/-- Translation of `models._coerce_int` restricted to string wire values. -/
def coerce_int (value : String) (default : Int) : Int :=
  let t := pyStrip value
  if t = "" then default
  else
    match t.toInt? with
    | some n => n
    | none => default

/-- The `DiscoveryCredential` pydantic model: only non-secret metadata
fields are declared on the model. -/
structure DiscoveryCredential where
  sys_id : String
  name : String
  type : String
  active : Bool
  tag : String
  order : Int
  affinity : String

/-- Helper reading a string-typed model field (pydantic strips whitespace,
missing fields keep the default). -/
def strField (data : Record) (key dflt : String) : String :=
  match lookupRec data key with
  | some v => pyStrip v
  | none => dflt

/-- Translation of `DiscoveryCredential.from_snow`: `_field_map` is empty on
this model, so each declared attribute is taken from the wire record under
the same name, with `active` and `order` coerced by the field validators and
all other fields defaulted per the model declaration. -/
def DiscoveryCredential.from_snow (data : Record) : DiscoveryCredential :=
  { sys_id := strField data "sys_id" ""
    name := strField data "name" ""
    type := strField data "type" ""
    active :=
      match lookupRec data "active" with
      | some v => coerce_bool v
      | none => true
    tag := strField data "tag" ""
    order :=
      match lookupRec data "order" with
      | some v => coerce_int v 100
      | none => 100
    affinity := strField data "affinity" "" }

/-- A dumped model value: string, boolean or integer. -/
inductive Val where
  | s (v : String)
  | b (v : Bool)
  | i (v : Int)
deriving DecidableEq, Repr

/-- Translation of pydantic `model_dump()` on `DiscoveryCredential`: one key
per declared model field, in declaration order. -/
def model_dump (c : DiscoveryCredential) : List (String × Val) :=
  [("sys_id", .s c.sys_id), ("name", .s c.name), ("type", .s c.type),
   ("active", .b c.active), ("tag", .s c.tag), ("order", .i c.order),
   ("affinity", .s c.affinity)]

/-- The record-shaping pipeline every credential-returning action applies to
a raw upstream record: `_strip_secrets`, then `DiscoveryCredential.from_snow`,
then `model_dump` (see `_action_get`, `_action_create`, `_action_update`). -/
def credReturnedRecord (raw : Record) : List (String × Val) :=
  model_dump (DiscoveryCredential.from_snow (strip_secrets raw))

/-- Translation of the data produced by `_action_list`: the pipeline above
mapped over every fetched record. -/
def action_list_data (records : List Record) : List (List (String × Val)) :=
  records.map credReturnedRecord

/-- A concrete upstream response record carrying secret-bearing extra fields
next to the metadata, as in the secret-stripping tests. -/
def sampleSecretRecord : Record :=
  [("sys_id", "a1b2c3d4e5f6a7b8c9d0e1f2a3b4c5d6"), ("name", "prod-ssh"),
   ("type", "SSH"), ("active", "true"), ("tag", "prod"), ("order", "100"),
   ("affinity", ""), ("password", "hunter2"), ("ssh_private_key", "PRIV"),
   ("community_string", "public"), ("passphrase", "pp")]

/-! ### C2 / C7 — HTTP status to error mapping, Retry-After propagation
Source: `_raise_for_status` and `_create_session` in
`src/snow_discovery_agent/client.py`. -/

/-- The typed errors `_raise_for_status` can raise, each carrying the HTTP
status and the details map built from the response. -/
inductive RaisedError where
  | authError (status : Nat) (details : List (String × String))
  | permissionError (status : Nat) (details : List (String × String))
  | notFoundError (status : Nat) (details : List (String × String))
  | rateLimitError (status : Nat) (details : List (String × String))
  | apiError (status : Nat) (details : List (String × String))
deriving DecidableEq, Repr

/-- Case-insensitive header lookup, as on `requests` response headers. -/
def headerGet (headers : List (String × String)) (key : String) : Option String :=
  (headers.find? (fun h => strLower h.1 == strLower key)).map Prod.snd

/-- The details map every raised error starts from (`url` and `method`). -/
def baseDetails (url method : String) : List (String × String) :=
  [("url", url), ("method", method)]

/-- Translation of `_raise_for_status`.  `response.ok` in `requests` is true
exactly when the status is outside [400, 600), so the function returns
without raising for every such status; otherwise it dispatches on the code.
For 429 it first copies the `Retry-After` header into the details under
`retry_after` when the header is present. -/
def raise_for_status (status : Nat) (headers : List (String × String))
    (url method : String) : Option RaisedError :=
  if status < 400 ∨ 600 ≤ status then none
  else if status = 401 then some (.authError status (baseDetails url method))
  else if status = 403 then some (.permissionError status (baseDetails url method))
  else if status = 404 then some (.notFoundError status (baseDetails url method))
  else if status = 429 then
    some (.rateLimitError status
      (match headerGet headers "Retry-After" with
       | some v => baseDetails url method ++ [("retry_after", v)]
       | none => baseDetails url method))
  else if 500 ≤ status then some (.apiError status (baseDetails url method))
  else some (.apiError status (baseDetails url method))

/-- The `status_forcelist` of the urllib3 retry strategy configured in
`_create_session` (`_RETRY_STATUS_CODES`): only these statuses are retried
by the transport. -/
def RETRY_STATUS_CODES : List Nat := [502, 503, 504]

/-- Lookup in a details map (first entry wins), mirroring dict access. -/
def detailGet (details : List (String × String)) (k : String) : Option String :=
  (details.find? (fun d => d.1 == k)).map Prod.snd

/-! ### Theorems for C1, C2, C7 -/

/-- C1: every credential record returned by the list, get, create and update
actions of `manage_discovery_credentials` — each of which shapes an arbitrary
raw upstream record (secret-bearing extra fields included) through
`_strip_secrets`, `DiscoveryCredential.from_snow` and `model_dump` — carries
exactly the allow-listed keys `sys_id, name, type, active, tag, order,
affinity`, and no returned key has a lowercase form containing a blacklisted
substring. -/
theorem C1_secret_stripping (records : List Record) (raw : Record)
    (rec : List (String × Val)) (hmem : rec ∈ action_list_data records) :
    (rec.map Prod.fst = SAFE_FIELDS ∧
      ∀ k ∈ rec.map Prod.fst, is_secret_field k = false) ∧
    ((credReturnedRecord raw).map Prod.fst = SAFE_FIELDS ∧
      ∀ k ∈ (credReturnedRecord raw).map Prod.fst, is_secret_field k = false) := by
  have hkeys : ∀ r : Record, (credReturnedRecord r).map Prod.fst = SAFE_FIELDS :=
    fun _ => rfl
  have hsec : ∀ k ∈ SAFE_FIELDS, is_secret_field k = false := by decide
  obtain ⟨raw', -, hr⟩ := List.mem_map.mp hmem
  subst hr
  refine ⟨⟨hkeys raw', ?_⟩, hkeys raw, ?_⟩
  · rw [hkeys raw']; exact hsec
  · rw [hkeys raw]; exact hsec

/-- Witness for C1 at a concrete upstream record that carries `password`,
`ssh_private_key`, `community_string` and `passphrase` fields. -/
theorem C1_secret_stripping_witness :
    (credReturnedRecord sampleSecretRecord).map Prod.fst = SAFE_FIELDS ∧
    ∀ k ∈ (credReturnedRecord sampleSecretRecord).map Prod.fst,
      is_secret_field k = false :=
  (C1_secret_stripping [sampleSecretRecord] sampleSecretRecord
    (credReturnedRecord sampleSecretRecord) (by simp [action_list_data])).2

/-- C2 counterexample: 304 is not a 2xx status, yet `_raise_for_status`
raises nothing for it, because `response.ok` in `requests` is true for every
status below 400 (3xx included); the claim that every non-2xx status raises
a documented error is therefore false at status 304. -/
theorem C2_counterexample :
    raise_for_status 304 [] "https://dev.service-now.com/api/now/table/t" "GET"
      = none ∧ ¬ (200 ≤ 304 ∧ 304 < 300) := by
  exact ⟨rfl, by decide⟩

/-- C2 amended: `_raise_for_status` raises nothing for every status below
400 (all 2xx and all 3xx); among the statuses in [400, 600), 401 raises the
auth error, 403 the permission error, 404 the not-found error, 429 the
rate-limit error, every 5xx the API error, and every remaining 4xx the API
error, each error carrying that status code. -/
theorem C2_status_mapping (status : Nat) (headers : List (String × String))
    (url method : String) :
    (status < 400 → raise_for_status status headers url method = none) ∧
    (raise_for_status 401 headers url method =
        some (.authError 401 (baseDetails url method))) ∧
    (raise_for_status 403 headers url method =
        some (.permissionError 403 (baseDetails url method))) ∧
    (raise_for_status 404 headers url method =
        some (.notFoundError 404 (baseDetails url method))) ∧
    (∃ d, raise_for_status 429 headers url method =
        some (.rateLimitError 429 d)) ∧
    (500 ≤ status → status < 600 →
      raise_for_status status headers url method =
        some (.apiError status (baseDetails url method))) ∧
    (400 ≤ status → status < 500 →
      status ≠ 401 → status ≠ 403 → status ≠ 404 → status ≠ 429 →
      raise_for_status status headers url method =
        some (.apiError status (baseDetails url method))) := by
  refine ⟨?_, rfl, rfl, rfl, ⟨_, rfl⟩, ?_, ?_⟩
  · intro h
    unfold raise_for_status
    rw [if_pos (Or.inl h)]
  · intro h5 h6
    unfold raise_for_status
    rw [if_neg (by omega), if_neg (by omega), if_neg (by omega),
      if_neg (by omega), if_neg (by omega), if_pos h5]
  · intro h4 h5 hn1 hn3 hn4 hn9
    unfold raise_for_status
    rw [if_neg (by omega), if_neg hn1, if_neg hn3, if_neg hn4, if_neg hn9,
      if_neg (by omega)]

/-- Witness for C2 amended at statuses 399 (no raise), 503 (API error) and
400 (API error). -/
theorem C2_status_mapping_witness :
    raise_for_status 399 [] "u" "GET" = none ∧
    raise_for_status 503 [] "u" "GET" =
      some (.apiError 503 (baseDetails "u" "GET")) ∧
    raise_for_status 400 [] "u" "GET" =
      some (.apiError 400 (baseDetails "u" "GET")) :=
  ⟨(C2_status_mapping 399 [] "u" "GET").1 (by decide),
   (C2_status_mapping 503 [] "u" "GET").2.2.2.2.2.1 (by decide) (by decide),
   (C2_status_mapping 400 [] "u" "GET").2.2.2.2.2.2 (by decide) (by decide)
     (by decide) (by decide) (by decide) (by decide)⟩

/-- C7: a 429 response raises the rate-limit error whose details map
contains `retry_after` with exactly the `Retry-After` header value when that
header is present, and contains no `retry_after` key at all when the header
is absent; and 429 is not in the transport retry status list, so the error
is surfaced to the caller instead of being retried. -/
theorem C7_retry_after (headers : List (String × String)) (url method v : String) :
    (headerGet headers "Retry-After" = some v →
      raise_for_status 429 headers url method =
        some (.rateLimitError 429
          (baseDetails url method ++ [("retry_after", v)])) ∧
      detailGet (baseDetails url method ++ [("retry_after", v)]) "retry_after"
        = some v) ∧
    (headerGet headers "Retry-After" = none →
      raise_for_status 429 headers url method =
        some (.rateLimitError 429 (baseDetails url method)) ∧
      detailGet (baseDetails url method) "retry_after" = none) ∧
    429 ∉ RETRY_STATUS_CODES := by
  have base : raise_for_status 429 headers url method =
      some (.rateLimitError 429
        (match headerGet headers "Retry-After" with
         | some w => baseDetails url method ++ [("retry_after", w)]
         | none => baseDetails url method)) := rfl
  refine ⟨?_, ?_, by decide⟩
  · intro h
    rw [base, h]
    exact ⟨rfl, rfl⟩
  · intro h
    rw [base, h]
    exact ⟨rfl, rfl⟩

/-- Witness for C7: one 429 with header `Retry-After: 60` and one without. -/
theorem C7_retry_after_witness :
    (raise_for_status 429 [("Retry-After", "60")] "u" "GET" =
        some (.rateLimitError 429
          (baseDetails "u" "GET" ++ [("retry_after", "60")])) ∧
      detailGet (baseDetails "u" "GET" ++ [("retry_after", "60")]) "retry_after"
        = some "60") ∧
    (raise_for_status 429 [] "u" "GET" =
        some (.rateLimitError 429 (baseDetails "u" "GET")) ∧
      detailGet (baseDetails "u" "GET") "retry_after" = none) :=
  ⟨(C7_retry_after [("Retry-After", "60")] "u" "GET" "60").1 (by rfl),
   (C7_retry_after [] "u" "GET" "60").2.1 (by rfl)⟩

/-! ### C3 — health score computation
Source: `_compute_health` in `src/snow_discovery_agent/tools/health.py`.
Python float arithmetic is modelled by exact rationals; `int()` applied to
the non-negative quantities of this function is `Int.floor`. -/

/-- A `discovery_status` row as used by the analytics code: the scan state
and the discovered-CI count. -/
structure ScanRec where
  state : String
  ci_count : Int
deriving DecidableEq, Repr

/-- Translation of `sum(1 for s in scans if s.state == "Error")`. -/
def countFailed (scans : List ScanRec) : Nat :=
  (scans.filter (fun s => s.state == "Error")).length

/-- Translation of `error_rate = (failed / total_scans * 100) if total_scans > 0 else 0.0`. -/
def error_rate (scans : List ScanRec) : ℚ :=
  if 0 < scans.length then (countFailed scans : ℚ) / (scans.length : ℚ) * 100
  else 0

/-- Translation of `scan_score = max(0, 100 - int(error_rate * 2))`. -/
def scan_score (scans : List ScanRec) : Int :=
  max 0 (100 - ⌊error_rate scans * 2⌋)

/-- Translation of `sum(1 for r in records if r.get("active") in ("true", True))`
on string-valued wire records. -/
def activeCount (records : List Record) : Nat :=
  (records.filter (fun r => lookupRec r "active" == some "true")).length

/-- Translation of the schedule/credential/range sub-score: 50 when the
collection is empty, else `int(active_ratio * 100)`. -/
def ratio_score (records : List Record) : Int :=
  if records.length = 0 then 50
  else ⌊(activeCount records : ℚ) / (records.length : ℚ) * 100⌋

/-- Translation of the overall score:
`int(scan_score*0.4 + schedule_score*0.2 + cred_score*0.2 + range_score*0.2)`
clamped to [0, 100]. -/
def health_score (scans : List ScanRec)
    (schedules credentials ranges : List Record) : Int :=
  max 0 (min 100
    (⌊(scan_score scans : ℚ) * 0.4 + (ratio_score schedules : ℚ) * 0.2
      + (ratio_score credentials : ℚ) * 0.2 + (ratio_score ranges : ℚ) * 0.2⌋))

/-- The amended sub-score formula: truncation (floor) instead of rounding. -/
def amendedSubScore (active total : Nat) : Int :=
  if total = 0 then 50 else ⌊(100 : ℚ) * active / total⌋

/-- The amended scan-score formula of the claim, with the floor made
explicit. -/
def amendedScanScore (failed total : Nat) : Int :=
  max 0 (100 - ⌊2 * (if total = 0 then (0 : ℚ) else (failed : ℚ) / total * 100)⌋)

/-- The amended overall formula: floor of the weighted sum, clamped. -/
def amendedOverall (scanS schedS credS rangeS : Int) : Int :=
  max 0 (min 100
    (⌊(scanS : ℚ) * 0.4 + (schedS : ℚ) * 0.2 + (credS : ℚ) * 0.2
      + (rangeS : ℚ) * 0.2⌋))

/-- A concrete credential collection with two of three records active. -/
def credsTwoOfThree : List Record :=
  [[("active", "true")], [("active", "true")], [("active", "false")]]

/-! ### C5 — trend direction
Source: `_action_trend` in `src/snow_discovery_agent/tools/analysis.py`.
The float literals 1.1 and 0.9 are modelled by the exact rationals they
denote in the comparison. -/

/-- Translation of `sum(half) / len(half) if half else 0`. -/
def listAvg (l : List Int) : ℚ :=
  if l.isEmpty then 0 else (l.sum : ℚ) / (l.length : ℚ)

/-- Translation of the trend classification inside `_action_trend`: the
newest-first CI-count list is split at index `len // 2`; the suffix is the
older half and the prefix the newer half. -/
def trend_direction (ciCounts : List Int) : String :=
  if 2 ≤ ciCounts.length then
    let avgFirst := listAvg (ciCounts.drop (ciCounts.length / 2))
    let avgSecond := listAvg (ciCounts.take (ciCounts.length / 2))
    if avgSecond > avgFirst * 1.1 then "improving"
    else if avgSecond < avgFirst * 0.9 then "degrading"
    else "stable"
  else "insufficient_data"

/-- Translation of the trend value `_action_trend` reports: the early return
for an empty scan list carries `"no_data"`; otherwise the classification
above runs on the CI counts. -/
def action_trend_direction (scans : List ScanRec) : String :=
  if scans.isEmpty then "no_data"
  else trend_direction (scans.map ScanRec.ci_count)

/-! ### Theorems for C3 and C5 -/

/-- C3 counterexample: with three credentials of which two are active, the
code computes `int(2/3 * 100) = 66`, while the claimed formula
`round(100 × active/total)` gives 67; the claim is false at this input. -/
theorem C3_counterexample :
    ratio_score credsTwoOfThree = 66 ∧ round ((100 : ℚ) * 2 / 3) = 67 := by
  constructor
  · have h1 : activeCount credsTwoOfThree = 2 := rfl
    have h2 : credsTwoOfThree.length = 3 := rfl
    unfold ratio_score
    rw [h1, h2, if_neg (by decide)]
    norm_num
  · rw [round_eq]
    norm_num

/-- C3 amended: the health computation uses truncation (`int()`, i.e. floor
on these non-negative values) rather than rounding: the scan score is
`max(0, 100 − ⌊2 × error_rate⌋)` with `error_rate = failed/total × 100` (0
when there are no scans); each of the schedule, credential and range scores
is 50 on an empty collection and `⌊100 × active/total⌋` otherwise; the
overall score is `⌊scan×0.4 + schedule×0.2 + credential×0.2 + range×0.2⌋`
clamped to [0, 100]; and zero scans with zero schedules, credentials and
ranges yields overall score 70. -/
theorem C3_health_score (scans : List ScanRec)
    (schedules credentials ranges : List Record) :
    scan_score scans = amendedScanScore (countFailed scans) scans.length ∧
    ratio_score schedules = amendedSubScore (activeCount schedules) schedules.length ∧
    ratio_score credentials = amendedSubScore (activeCount credentials) credentials.length ∧
    ratio_score ranges = amendedSubScore (activeCount ranges) ranges.length ∧
    health_score scans schedules credentials ranges =
      amendedOverall (scan_score scans) (ratio_score schedules)
        (ratio_score credentials) (ratio_score ranges) ∧
    health_score [] [] [] [] = 70 := by
  have hsub : ∀ records : List Record,
      ratio_score records = amendedSubScore (activeCount records) records.length := by
    intro records
    unfold ratio_score amendedSubScore
    by_cases h : records.length = 0
    · rw [if_pos h, if_pos h]
    · rw [if_neg h, if_neg h]
      congr 1
      rw [div_mul_eq_mul_div, mul_comm]
  have hscan : scan_score scans = amendedScanScore (countFailed scans) scans.length := by
    unfold scan_score amendedScanScore error_rate
    by_cases h : scans.length = 0
    · rw [if_neg (by omega), if_pos h]
      norm_num
    · rw [if_pos (by omega), if_neg h]
      congr 2
      rw [mul_comm]
  refine ⟨hscan, hsub schedules, hsub credentials, hsub ranges, rfl, ?_⟩
  have h100 : scan_score ([] : List ScanRec) = 100 := by
    unfold scan_score error_rate
    norm_num
  have h50 : ratio_score ([] : List Record) = 50 := by
    unfold ratio_score
    norm_num
  unfold health_score
  rw [h100, h50]
  norm_num

/-- C5 counterexample: with zero scans the trend action returns the early
`"no_data"` value, not the claimed `"insufficient_data"`. -/
theorem C5_counterexample :
    action_trend_direction [] = "no_data" ∧
    "no_data" ≠ "insufficient_data" := by
  exact ⟨rfl, by decide⟩

/-- C5 amended: for exactly one scan the trend action yields
`"insufficient_data"`, for zero scans it yields `"no_data"`, and for two or
more scans it splits the newest-first CI-count list at index `len / 2`
(prefix = newer half, suffix = older half), averages the halves, and returns
`"improving"` when the newer average strictly exceeds 1.1 times the older,
`"degrading"` when it is strictly below 0.9 times the older, `"stable"`
otherwise; in particular CI counts [10, 10, 30, 30] (newest first) yield
`"degrading"`. -/
theorem C5_trend_classification (scans : List ScanRec) :
    (scans.length = 1 → action_trend_direction scans = "insufficient_data") ∧
    action_trend_direction [] = "no_data" ∧
    (2 ≤ scans.length →
      action_trend_direction scans =
        (if listAvg ((scans.map ScanRec.ci_count).take (scans.length / 2)) >
            listAvg ((scans.map ScanRec.ci_count).drop (scans.length / 2)) * 1.1
         then "improving"
         else if listAvg ((scans.map ScanRec.ci_count).take (scans.length / 2)) <
            listAvg ((scans.map ScanRec.ci_count).drop (scans.length / 2)) * 0.9
         then "degrading"
         else "stable")) ∧
    action_trend_direction
      [⟨"Completed", 10⟩, ⟨"Completed", 10⟩, ⟨"Completed", 30⟩, ⟨"Completed", 30⟩]
      = "degrading" := by
  refine ⟨?_, rfl, ?_, ?_⟩
  · intro h1
    have hne : scans.isEmpty = false := by
      cases scans <;> simp_all
    unfold action_trend_direction trend_direction
    rw [hne]
    simp only [Bool.false_eq_true, if_false, List.length_map]
    rw [if_neg (by omega)]
  · intro h2
    have hne : scans.isEmpty = false := by
      cases scans <;> simp_all
    unfold action_trend_direction trend_direction
    rw [hne]
    simp only [Bool.false_eq_true, if_false, List.length_map]
    rw [if_pos h2]
  · have hdrop : (([10, 10, 30, 30] : List Int)).drop
        ((([10, 10, 30, 30] : List Int)).length / 2) = [30, 30] := rfl
    have htake : (([10, 10, 30, 30] : List Int)).take
        ((([10, 10, 30, 30] : List Int)).length / 2) = [10, 10] := rfl
    have a1 : listAvg [10, 10] = 10 := by norm_num [listAvg]
    have a2 : listAvg [30, 30] = 30 := by norm_num [listAvg]
    have hmap : (List.map ScanRec.ci_count
        [⟨"Completed", 10⟩, ⟨"Completed", 10⟩, ⟨"Completed", 30⟩,
          ⟨"Completed", 30⟩]) = ([10, 10, 30, 30] : List Int) := rfl
    unfold action_trend_direction
    rw [show (([⟨"Completed", 10⟩, ⟨"Completed", 10⟩, ⟨"Completed", 30⟩,
      ⟨"Completed", 30⟩] : List ScanRec)).isEmpty = false from rfl]
    simp only [Bool.false_eq_true, if_false, hmap]
    unfold trend_direction
    rw [if_pos (by norm_num)]
    simp only [hdrop, htake, a1, a2]
    rw [if_neg (by norm_num), if_pos (by norm_num)]

/-- Witness for C5 amended: a single scan yields `"insufficient_data"`, and
a two-scan list goes through the half-split classification. -/
theorem C5_trend_classification_witness :
    action_trend_direction [⟨"Completed", 5⟩] = "insufficient_data" ∧
    action_trend_direction [⟨"Completed", 30⟩, ⟨"Completed", 10⟩] = "improving" := by
  constructor
  · exact (C5_trend_classification [⟨"Completed", 5⟩]).1 (by decide)
  · have h := (C5_trend_classification
      [⟨"Completed", 30⟩, ⟨"Completed", 10⟩]).2.2.1 (by decide)
    rw [h]
    have hmap : (List.map ScanRec.ci_count
        [⟨"Completed", 30⟩, ⟨"Completed", 10⟩]) = ([30, 10] : List Int) := rfl
    simp only [hmap]
    rw [if_pos]
    have a1 : listAvg [30] = 30 := by norm_num [listAvg]
    have a2 : listAvg [10] = 10 := by norm_num [listAvg]
    rw [show (([30, 10] : List Int)).take
        ((([⟨"Completed", 30⟩, ⟨"Completed", 10⟩] : List ScanRec)).length / 2)
        = [30] from rfl,
      show (([30, 10] : List Int)).drop
        ((([⟨"Completed", 30⟩, ⟨"Completed", 10⟩] : List ScanRec)).length / 2)
        = [10] from rfl, a1, a2]
    norm_num

/-! ### C4 — error categorization
Source: `_ERROR_CATEGORIES` and `_categorize_error` in
`src/snow_discovery_agent/tools/analysis.py`.  Python dicts preserve
insertion order, so the dict is modelled as an ordered association list. -/

/-- Translation of `_ERROR_CATEGORIES`, in the dict's insertion order. -/
def ERROR_CATEGORIES : List (String × List String) :=
  [("credential_failure",
     ["credential", "authentication", "login", "password", "access denied"]),
   ("network_timeout",
     ["timeout", "timed out", "unreachable", "connection refused"]),
   ("classification_failure",
     ["classification", "pattern", "classify", "unclassified"]),
   ("port_scan_failure",
     ["port scan", "port closed", "port unreachable"]),
   ("snmp_failure",
     ["snmp", "community string", "snmp timeout"]),
   ("ssh_failure",
     ["ssh", "key exchange", "host key"]),
   ("wmi_failure",
     ["wmi", "windows management", "dcom"])]

/-- One category matches when any of its keywords is contained in the
lowercased message (`any(kw in lower_msg for kw in keywords)`). -/
def matchesCategory (lowerMsg : String) (entry : String × List String) : Bool :=
  entry.2.any (fun kw => strContains lowerMsg kw)

/-- Translation of `_categorize_error`: the first category in iteration
order with a matching keyword wins, else `"other"`. -/
def categorize_error (message : String) : String :=
  match ERROR_CATEGORIES.find? (matchesCategory (strLower message)) with
  | some entry => entry.1
  | none => "other"

/-- Helper: `find?` returns the first element satisfying the predicate when
everything before it fails the predicate. -/
theorem find?_first {α : Type} (p : α → Bool) (pre : List α) (x : α)
    (post : List α) (hpre : ∀ e ∈ pre, p e = false) (hx : p x = true) :
    (pre ++ x :: post).find? p = some x := by
  induction pre with
  | nil => simp [List.find?, hx]
  | cons a t ih =>
    have ha : p a = false := hpre a (by simp)
    simp only [List.cons_append, List.find?, ha]
    exact ih fun e he => hpre e (List.mem_cons_of_mem a he)

/-- C4 counterexample: the message "snmp timeout" matches the SNMP keyword
"snmp timeout", yet the code classifies it as `network_timeout`: the
network category precedes the SNMP category in the fixed order and its
keyword "timeout" is contained in the message.  The claim that such a
message is not classified into `network_timeout` is therefore false. -/
theorem C4_counterexample :
    categorize_error "snmp timeout" = "network_timeout" ∧
    strContains (strLower "snmp timeout") "snmp timeout" = true ∧
    "network_timeout" ≠ "snmp_failure" := by
  exact ⟨rfl, rfl, by decide⟩

/-- C4 amended: categorization returns the first category in the fixed order
(credential_failure, network_timeout, classification_failure,
port_scan_failure, snmp_failure, ssh_failure, wmi_failure) whose keyword
list has a member contained case-insensitively in the message, and "other"
when none matches; consequently an SNMP message that also contains a
generic network keyword (such as "snmp timeout") falls into
network_timeout, while an SNMP message matching only SNMP keywords (such as
"SNMP community string error") is classified snmp_failure. -/
theorem C4_categorization (message : String)
    (pre post : List (String × List String)) (entry : String × List String)
    (horder : ERROR_CATEGORIES = pre ++ entry :: post)
    (hpre : ∀ e ∈ pre, matchesCategory (strLower message) e = false)
    (hentry : matchesCategory (strLower message) entry = true) :
    categorize_error message = entry.1 ∧
    (∀ msg : String,
      (∀ e ∈ ERROR_CATEGORIES, matchesCategory (strLower msg) e = false) →
      categorize_error msg = "other") ∧
    categorize_error "SNMP community string error" = "snmp_failure" := by
  refine ⟨?_, ?_, rfl⟩
  · unfold categorize_error
    rw [horder, find?_first _ pre entry post hpre hentry]
  · intro msg hnone
    unfold categorize_error
    have hfind : ERROR_CATEGORIES.find? (matchesCategory (strLower msg)) = none := by
      rw [List.find?_eq_none]
      intro a ha
      simp [hnone a ha]
    rw [hfind]

/-- Witness for C4 amended: the first-match rule applied to the message
"snmp timeout" with the credential category failing and the network
category matching. -/
theorem C4_categorization_witness :
    categorize_error "snmp timeout" =
      ("network_timeout",
        ["timeout", "timed out", "unreachable", "connection refused"]).1 :=
  (C4_categorization "snmp timeout"
    [("credential_failure",
       ["credential", "authentication", "login", "password", "access denied"])]
    [("classification_failure",
       ["classification", "pattern", "classify", "unclassified"]),
     ("port_scan_failure",
       ["port scan", "port closed", "port unreachable"]),
     ("snmp_failure",
       ["snmp", "community string", "snmp timeout"]),
     ("ssh_failure",
       ["ssh", "key exchange", "host key"]),
     ("wmi_failure",
       ["wmi", "windows management", "dcom"])]
    ("network_timeout",
      ["timeout", "timed out", "unreachable", "connection refused"])
    (by rfl) (by decide) (by decide)).1

/-! ### C6 — two-run comparison
Source: `_get_scan_with_errors` and `_action_compare` in
`src/snow_discovery_agent/tools/compare.py`. -/

/-- Translation of the dedup key `msg[:100] if len(msg) > 100 else msg`. -/
def truncKey (msg : String) : String :=
  if 100 < msg.length then String.mk (msg.toList.take 100) else msg

/-- A `collections.Counter` over message keys, in insertion order. -/
abbrev Counter := List (String × Nat)

/-- Counter lookup with default 0 (`errors.get(msg, 0)`). -/
def lookupCount (c : Counter) (k : String) : Nat :=
  match c with
  | [] => 0
  | (k₀, n) :: rest => if k₀ = k then n else lookupCount rest k

/-- One `counter[key] += 1` step: bump the existing bucket or append a new
one. -/
def countInto (c : Counter) (k : String) : Counter :=
  match c with
  | [] => [(k, 1)]
  | (k₀, n) :: rest =>
    if k₀ = k then (k₀, n + 1) :: rest else (k₀, n) :: countInto rest k

/-- Translation of the error-counting loop of `_get_scan_with_errors`: every
log message is truncated to its dedup key and accumulated. -/
def buildCounter (msgs : List String) : Counter :=
  msgs.foldl (fun c m => countInto c (truncKey m)) []

/-- The keys of a counter, in insertion order. -/
def counterKeys (c : Counter) : List String := c.map Prod.fst

theorem lookupCount_countInto (c : Counter) (k k' : String) :
    lookupCount (countInto c k) k' =
      lookupCount c k' + (if k' = k then 1 else 0) := by
  induction c with
  | nil =>
    by_cases h : k' = k
    · subst h; simp [countInto, lookupCount]
    · show lookupCount [(k, 1)] k' = 0 + ite (k' = k) 1 0
      unfold lookupCount
      rw [if_neg (fun hh => h hh.symm), if_neg h]
      rfl
  | cons hd t ih =>
    obtain ⟨k₀, n⟩ := hd
    unfold countInto
    by_cases h : k₀ = k
    · rw [if_pos h]
      unfold lookupCount
      by_cases h2 : k₀ = k'
      · rw [if_pos h2, if_pos h2, if_pos (h2.symm.trans h)]
      · rw [if_neg h2, if_neg h2, if_neg (fun hh => h2 (h.trans hh.symm))]
        omega
    · rw [if_neg h]
      unfold lookupCount
      by_cases h2 : k₀ = k'
      · rw [if_pos h2, if_pos h2, if_neg (fun hh => h (h2.trans hh))]
        omega
      · rw [if_neg h2, if_neg h2]
        exact ih

theorem lookupCount_build (msgs : List String) (k : String) :
    lookupCount (buildCounter msgs) k = (msgs.map truncKey).count k := by
  suffices h : ∀ c : Counter,
      lookupCount (msgs.foldl (fun c m => countInto c (truncKey m)) c) k
        = lookupCount c k + (msgs.map truncKey).count k by
    simpa [buildCounter, lookupCount] using h []
  induction msgs with
  | nil => intro c; simp
  | cons m t ih =>
    intro c
    simp only [List.foldl_cons, List.map_cons]
    rw [ih (countInto c (truncKey m)), lookupCount_countInto, List.count_cons]
    by_cases h : k = truncKey m
    · simp [h]
      omega
    · have h' : ¬ truncKey m = k := fun hh => h hh.symm
      simp [h, h']

theorem mem_keys_countInto (c : Counter) (k k' : String) :
    k' ∈ counterKeys (countInto c k) ↔ k' ∈ counterKeys c ∨ k' = k := by
  induction c with
  | nil => simp [countInto, counterKeys]
  | cons hd t ih =>
    obtain ⟨k₀, n⟩ := hd
    unfold countInto
    by_cases h : k₀ = k
    · rw [if_pos h]
      subst h
      simp only [counterKeys, List.map_cons, List.mem_cons]
      tauto
    · rw [if_neg h]
      simp only [counterKeys, List.map_cons, List.mem_cons]
      rw [show (List.map Prod.fst (countInto t k)) = counterKeys (countInto t k)
        from rfl, ih]
      tauto

theorem mem_keys_build (msgs : List String) (k : String) :
    k ∈ counterKeys (buildCounter msgs) ↔ k ∈ msgs.map truncKey := by
  suffices h : ∀ c : Counter,
      k ∈ counterKeys (msgs.foldl (fun c m => countInto c (truncKey m)) c)
        ↔ k ∈ counterKeys c ∨ k ∈ msgs.map truncKey by
    simpa [buildCounter, counterKeys] using h []
  induction msgs with
  | nil => intro c; simp
  | cons m t ih =>
    intro c
    simp only [List.foldl_cons, List.map_cons, List.mem_cons]
    rw [ih (countInto c (truncKey m)), mem_keys_countInto]
    tauto

/-- An error-delta entry (`ErrorDelta` in `models.py`): the dedup key, the
partition it fell into, and its counts in scans A and B. -/
structure ErrorDelta where
  message : String
  status : String
  count_a : Nat
  count_b : Nat
deriving DecidableEq, Repr

/-- Translation of `all_error_msgs = set(errors_a) | set(errors_b)` (Python
set iteration order is unspecified; only membership matters below). -/
def unionKeys (cA cB : Counter) : List String :=
  counterKeys cA ++ (counterKeys cB).filter (fun k => decide (k ∉ counterKeys cA))

/-- The `"new"` partition of the comparison loop: count 0 in A, positive in
B. -/
def errors_new (cA cB : Counter) : List ErrorDelta :=
  (unionKeys cA cB).filterMap (fun m =>
    if lookupCount cA m = 0 ∧ 0 < lookupCount cB m then
      some ⟨m, "new", lookupCount cA m, lookupCount cB m⟩
    else none)

/-- The `"resolved"` partition: positive in A, count 0 in B. -/
def errors_resolved (cA cB : Counter) : List ErrorDelta :=
  (unionKeys cA cB).filterMap (fun m =>
    if 0 < lookupCount cA m ∧ lookupCount cB m = 0 then
      some ⟨m, "resolved", lookupCount cA m, lookupCount cB m⟩
    else none)

/-- The `"persistent"` partition: the `else` branch of the loop, retaining
both counts. -/
def errors_persistent (cA cB : Counter) : List ErrorDelta :=
  (unionKeys cA cB).filterMap (fun m =>
    if ¬(lookupCount cA m = 0 ∧ 0 < lookupCount cB m) ∧
        ¬(0 < lookupCount cA m ∧ lookupCount cB m = 0) then
      some ⟨m, "persistent", lookupCount cA m, lookupCount cB m⟩
    else none)

/-- The parts of `DiscoveryCompareResult` that C6 speaks about. -/
structure CompareResult where
  delta_ci_count : Int
  errors_new : List ErrorDelta
  errors_resolved : List ErrorDelta
  errors_persistent : List ErrorDelta
deriving DecidableEq, Repr

/-- Translation of `_action_compare` restricted to the compared quantities:
scan A and B with their Error-level log messages. -/
def action_compare (a b : ScanRec) (logsA logsB : List String) : CompareResult :=
  { delta_ci_count := b.ci_count - a.ci_count
    errors_new := errors_new (buildCounter logsA) (buildCounter logsB)
    errors_resolved := errors_resolved (buildCounter logsA) (buildCounter logsB)
    errors_persistent := errors_persistent (buildCounter logsA) (buildCounter logsB) }

theorem mem_unionKeys_build (logsA logsB : List String) (k : String) :
    k ∈ unionKeys (buildCounter logsA) (buildCounter logsB) ↔
      0 < lookupCount (buildCounter logsA) k ∨
      0 < lookupCount (buildCounter logsB) k := by
  rw [lookupCount_build, lookupCount_build]
  have hA := mem_keys_build logsA k
  have hB := mem_keys_build logsB k
  simp only [unionKeys, List.mem_append, List.mem_filter, decide_eq_true_eq,
    hA, hB, List.count_pos_iff]
  tauto

theorem mem_errors_new_iff (cA cB : Counter)
    (hu : ∀ m, m ∈ unionKeys cA cB ↔
      0 < lookupCount cA m ∨ 0 < lookupCount cB m) (k : String) :
    (⟨k, "new", lookupCount cA k, lookupCount cB k⟩ : ErrorDelta)
        ∈ errors_new cA cB ↔
      lookupCount cA k = 0 ∧ 0 < lookupCount cB k := by
  unfold errors_new
  rw [List.mem_filterMap]
  constructor
  · rintro ⟨m, hm, hf⟩
    by_cases hc : lookupCount cA m = 0 ∧ 0 < lookupCount cB m
    · rw [if_pos hc] at hf
      have hmk : m = k := congrArg ErrorDelta.message (Option.some.inj hf)
      exact hmk ▸ hc
    · rw [if_neg hc] at hf
      simp at hf
  · intro hc
    refine ⟨k, (hu k).mpr (Or.inr hc.2), ?_⟩
    rw [if_pos hc]

theorem mem_errors_resolved_iff (cA cB : Counter)
    (hu : ∀ m, m ∈ unionKeys cA cB ↔
      0 < lookupCount cA m ∨ 0 < lookupCount cB m) (k : String) :
    (⟨k, "resolved", lookupCount cA k, lookupCount cB k⟩ : ErrorDelta)
        ∈ errors_resolved cA cB ↔
      0 < lookupCount cA k ∧ lookupCount cB k = 0 := by
  unfold errors_resolved
  rw [List.mem_filterMap]
  constructor
  · rintro ⟨m, hm, hf⟩
    by_cases hc : 0 < lookupCount cA m ∧ lookupCount cB m = 0
    · rw [if_pos hc] at hf
      have hmk : m = k := congrArg ErrorDelta.message (Option.some.inj hf)
      exact hmk ▸ hc
    · rw [if_neg hc] at hf
      simp at hf
  · intro hc
    refine ⟨k, (hu k).mpr (Or.inl hc.1), ?_⟩
    rw [if_pos hc]

theorem mem_errors_persistent_iff (cA cB : Counter)
    (hu : ∀ m, m ∈ unionKeys cA cB ↔
      0 < lookupCount cA m ∨ 0 < lookupCount cB m) (k : String) :
    (⟨k, "persistent", lookupCount cA k, lookupCount cB k⟩ : ErrorDelta)
        ∈ errors_persistent cA cB ↔
      0 < lookupCount cA k ∧ 0 < lookupCount cB k := by
  unfold errors_persistent
  rw [List.mem_filterMap]
  constructor
  · rintro ⟨m, hm, hf⟩
    by_cases hc : ¬(lookupCount cA m = 0 ∧ 0 < lookupCount cB m) ∧
        ¬(0 < lookupCount cA m ∧ lookupCount cB m = 0)
    · rw [if_pos hc] at hf
      have hmk : m = k := congrArg ErrorDelta.message (Option.some.inj hf)
      subst hmk
      have hun := (hu m).mp hm
      omega
    · rw [if_neg hc] at hf
      simp at hf
  · intro hc
    refine ⟨k, (hu k).mpr (Or.inl hc.1), ?_⟩
    rw [if_pos (by omega)]

/-- C6: for every pair of scans A and B with their Error-level log messages,
the compare action computes `delta_ci_count = B.ci_count − A.ci_count`;
messages are deduplicated by their 100-character truncation, duplicate keys
summing into one counter bucket; and the error partition is: a key with
count 0 in A and positive in B is "new", positive in A and 0 in B is
"resolved", positive in both is "persistent", with both counts retained on
every entry.  In particular A with CI count 40 and one error "X" versus B
with CI count 45 and one error "Y" yields delta 5, resolved [X], new [Y],
persistent []. -/
theorem C6_compare_partition (a b : ScanRec) (logsA logsB : List String)
    (k : String) :
    (action_compare a b logsA logsB).delta_ci_count = b.ci_count - a.ci_count ∧
    lookupCount (buildCounter logsA) k = (logsA.map truncKey).count k ∧
    ((⟨k, "new", lookupCount (buildCounter logsA) k,
        lookupCount (buildCounter logsB) k⟩ : ErrorDelta)
        ∈ (action_compare a b logsA logsB).errors_new ↔
      lookupCount (buildCounter logsA) k = 0 ∧
        0 < lookupCount (buildCounter logsB) k) ∧
    ((⟨k, "resolved", lookupCount (buildCounter logsA) k,
        lookupCount (buildCounter logsB) k⟩ : ErrorDelta)
        ∈ (action_compare a b logsA logsB).errors_resolved ↔
      0 < lookupCount (buildCounter logsA) k ∧
        lookupCount (buildCounter logsB) k = 0) ∧
    ((⟨k, "persistent", lookupCount (buildCounter logsA) k,
        lookupCount (buildCounter logsB) k⟩ : ErrorDelta)
        ∈ (action_compare a b logsA logsB).errors_persistent ↔
      0 < lookupCount (buildCounter logsA) k ∧
        0 < lookupCount (buildCounter logsB) k) ∧
    action_compare ⟨"Completed", 40⟩ ⟨"Completed", 45⟩ ["X"] ["Y"] =
      { delta_ci_count := 5
        errors_new := [⟨"Y", "new", 0, 1⟩]
        errors_resolved := [⟨"X", "resolved", 1, 0⟩]
        errors_persistent := [] } := by
  refine ⟨rfl, lookupCount_build logsA k, ?_, ?_, ?_, by decide⟩
  · exact mem_errors_new_iff (buildCounter logsA) (buildCounter logsB)
      (fun m => mem_unionKeys_build logsA logsB m) k
  · exact mem_errors_resolved_iff (buildCounter logsA) (buildCounter logsB)
      (fun m => mem_unionKeys_build logsA logsB m) k
  · exact mem_errors_persistent_iff (buildCounter logsA) (buildCounter logsB)
      (fun m => mem_unionKeys_build logsA logsB m) k

/-! ### C8 — IP range validation
Source: `_validate_ip_range`, `_validate_ip_address`, `_validate_cidr`,
`_action_validate` and `_action_create` in
`src/snow_discovery_agent/tools/ranges.py`, together with the address
parsing of the Python standard library `ipaddress` module.  The `ipaddress`
grammar is modelled for plain IPv4 dotted quads and IPv6 hex-group forms
(with at most one `::`); IPv4-embedded IPv6 and zone suffixes are not used
by this repository and are not modelled. -/

/-- Split a character list on a separator character, as `str.split(sep)`. -/
def splitChar (sep : Char) : List Char → List (List Char)
  | [] => [[]]
  | c :: cs =>
    if c = sep then [] :: splitChar sep cs
    else
      match splitChar sep cs with
      | [] => [[c]]
      | h :: t => (c :: h) :: t

/-- Split a character list on the two-character separator `::`
(left-to-right, non-overlapping), as `str.split("::")`. -/
def splitCC : List Char → List (List Char)
  | [] => [[]]
  | ':' :: ':' :: rest => [] :: splitCC rest
  | c :: rest =>
    match splitCC rest with
    | [] => [[c]]
    | h :: t => (c :: h) :: t

/-- Decimal value of a digit list. -/
def decimalValue (cs : List Char) : Nat :=
  cs.foldl (fun acc c => acc * 10 + (c.toNat - '0'.toNat)) 0

/-- One IPv4 octet per `ipaddress._parse_octet`: 1-3 ASCII digits, no
leading zero, value at most 255. -/
def parseOctet (cs : List Char) : Option Nat :=
  if cs = [] then none
  else if !(cs.all Char.isDigit) then none
  else if 3 < cs.length then none
  else if 1 < cs.length ∧ cs.head? = some '0' then none
  else if decimalValue cs ≤ 255 then some (decimalValue cs)
  else none

/-- IPv4 dotted-quad parser: exactly four valid octets. -/
def parseIPv4 (s : String) : Option Nat :=
  match splitChar '.' s.toList with
  | [a, b, c, d] =>
    match parseOctet a, parseOctet b, parseOctet c, parseOctet d with
    | some oa, some ob, some oc, some od =>
      some (((oa * 256 + ob) * 256 + oc) * 256 + od)
    | _, _, _, _ => none
  | _ => none

/-- Hexadecimal digit test, as for `[0-9a-fA-F]`. -/
def isHexChar (c : Char) : Bool :=
  c.isDigit || ('a' ≤ c && c ≤ 'f') || ('A' ≤ c && c ≤ 'F')

/-- Value of one hexadecimal digit. -/
def hexVal (c : Char) : Nat :=
  if c.isDigit then c.toNat - '0'.toNat
  else if 'a' ≤ c && c ≤ 'f' then c.toNat - 'a'.toNat + 10
  else c.toNat - 'A'.toNat + 10

/-- One IPv6 hex group: 1-4 hexadecimal digits. -/
def parseHexGroup (cs : List Char) : Option Nat :=
  if cs = [] then none
  else if !(cs.all isHexChar) then none
  else if 4 < cs.length then none
  else some (cs.foldl (fun acc c => acc * 16 + hexVal c) 0)

/-- Combine eight 16-bit groups into the 128-bit address value. -/
def groupsValue (gs : List Nat) : Nat :=
  gs.foldl (fun acc g => acc * 65536 + g) 0

/-- IPv6 parser: eight hex groups, or two group runs joined by one `::`
abbreviating at least one zero group. -/
def parseIPv6 (s : String) : Option Nat :=
  match splitCC s.toList with
  | [whole] =>
    let parts := splitChar ':' whole
    if parts.length = 8 then
      match parts.mapM parseHexGroup with
      | some gs => some (groupsValue gs)
      | none => none
    else none
  | [l, r] =>
    let lparts := if l = [] then [] else splitChar ':' l
    let rparts := if r = [] then [] else splitChar ':' r
    if lparts.length + rparts.length ≤ 7 then
      match lparts.mapM parseHexGroup, rparts.mapM parseHexGroup with
      | some lg, some rg =>
        some (groupsValue
          (lg ++ List.replicate (8 - lg.length - rg.length) 0 ++ rg))
      | _, _ => none
    else none
  | _ => none

/-- A parsed address with its family, as `ipaddress.ip_address` returns an
`IPv4Address` or `IPv6Address`. -/
inductive IPAddr where
  | v4 (val : Nat)
  | v6 (val : Nat)
deriving DecidableEq, Repr

/-- Translation of `ipaddress.ip_address`: IPv4 is tried first, then IPv6;
an unparsable string raises `ValueError` (here: `none`). -/
def ip_address? (s : String) : Option IPAddr :=
  match parseIPv4 s with
  | some v => some (.v4 v)
  | none =>
    match parseIPv6 s with
    | some v => some (.v6 v)
    | none => none

/-- The integer value of a parsed address (`int(addr)`). -/
def addrVal : IPAddr → Nat
  | .v4 v => v
  | .v6 v => v

/-- Same address family (`type(start_addr) is type(end_addr)`). -/
def sameFamily : IPAddr → IPAddr → Bool
  | .v4 _, .v4 _ => true
  | .v6 _, .v6 _ => true
  | _, _ => false

/-- Translation of `_validate_ip_address`: strip, parse, return the stripped
string or a `ValueError` message. -/
def validate_ip_address (s label : String) : Except String String :=
  match ip_address? (pyStrip s) with
  | some _ => .ok (pyStrip s)
  | none => .error ("Invalid IP address for " ++ label ++ ": " ++ pyStrip s)

/-- Translation of `_validate_cidr`: `ip_network(strict=False)` on a bare
address or an `addr/prefix` form with a decimal prefix bounded by the
family width (netmask-style suffixes are not used by this repository). -/
def validate_cidr (s label : String) : Except String String :=
  match splitChar '/' (pyStrip s).toList with
  | [a] =>
    (match ip_address? (String.mk a) with
     | some _ => .ok (pyStrip s)
     | none => .error ("Invalid CIDR network for " ++ label ++ ": " ++ pyStrip s))
  | [a, p] =>
    (match ip_address? (String.mk a) with
     | some addr =>
       if p ≠ [] ∧ p.all Char.isDigit ∧
           decimalValue p ≤ (match addr with | .v4 _ => 32 | .v6 _ => 128) then
         .ok (pyStrip s)
       else .error ("Invalid CIDR network for " ++ label ++ ": " ++ pyStrip s)
     | none => .error ("Invalid CIDR network for " ++ label ++ ": " ++ pyStrip s))
  | _ => .error ("Invalid CIDR network for " ++ label ++ ": " ++ pyStrip s)

/-- Translation of `_validate_ip_range`: family mismatch first, then the
numeric order check `int(end_addr) < int(start_addr)`. -/
def validate_ip_range (start e : String) : Except String Unit :=
  match ip_address? start, ip_address? e with
  | some a, some b =>
    if sameFamily a b = false then
      .error ("IP address family mismatch: start=" ++ start ++ " vs end=" ++ e)
    else if addrVal b < addrVal a then
      .error ("Range end (" ++ e ++ ") must be >= range start (" ++ start ++ ")")
    else .ok ()
  | _, _ => .error "does not appear to be an IPv4 or IPv6 address"

/-- The `_VALID_RANGE_TYPES` set. -/
def VALID_RANGE_TYPES : List String := ["IP Range", "IP Network", "IP Address"]

/-- The envelope fragment that validation-centred claims observe: the
`success` flag, the issue list placed in `data`, and the `error` code. -/
structure ValidateOut where
  success : Bool
  issues : List String
  error : Option String
deriving DecidableEq, Repr

/-- Translation of `_action_validate`: the three issue-collecting steps for
`range_type`, `range_start` and (for IP Range) `range_end`, then the
envelope built from the accumulated issues. -/
def action_validate (range_type range_start range_end : Option String) :
    ValidateOut :=
  let stepType : List String × Option String :=
    match range_type with
    | none => (["range_type is required"], none)
    | some t =>
      if pyStrip t = "" then (["range_type is required"], none)
      else if !(VALID_RANGE_TYPES.contains (pyStrip t)) then
        (["Invalid range_type: " ++ t], none)
      else ([], some (pyStrip t))
  let stepStart : List String × Option String :=
    match range_start with
    | none => (["range_start is required"], none)
    | some s =>
      if pyStrip s = "" then (["range_start is required"], none)
      else
        let rtv := stepType.2.getD ""
        if rtv = "IP Network" then
          match validate_cidr s "range_start" with
          | .ok _ => ([], some (pyStrip s))
          | .error m => ([m], none)
        else if rtv = "IP Range" ∨ rtv = "IP Address" then
          match validate_ip_address s "range_start" with
          | .ok _ => ([], some (pyStrip s))
          | .error m => ([m], none)
        else ([], some (pyStrip s))
  let stepEnd : List String :=
    if stepType.2 = some "IP Range" then
      match range_end with
      | none => ["range_end is required for IP Range type"]
      | some e =>
        if pyStrip e = "" then ["range_end is required for IP Range type"]
        else
          match validate_ip_address e "range_end" with
          | .error m => [m]
          | .ok _ =>
            match stepStart.2 with
            | some sv =>
              (match validate_ip_range sv (pyStrip e) with
               | .error m => [m]
               | .ok _ => [])
            | none => []
    else []
  let issues := stepType.1 ++ stepStart.1 ++ stepEnd
  if issues = [] then ⟨true, [], none⟩
  else ⟨false, issues, some "VALIDATION_ERROR"⟩

/-- An HTTP request issued through the transport client. -/
inductive Request where
  | getReq (table : String) (sysId : Option String)
  | postReq (table : String) (body : Record)
  | patchReq (table : String) (sysId : String) (body : Record)
  | deleteReq (table : String) (sysId : String)
deriving DecidableEq, Repr

/-- Translation of the validation prefix of `_action_create` (the code that
runs before `client.post`): each check raises `ValueError` in order; on
success the record body to be posted is built.  The `active` and `include`
arguments are omitted here (taken as `None`), so both default to "true". -/
def action_create_validate (name rt rs re : Option String) :
    Except String Record :=
  match name with
  | none => .error "name is required for create action"
  | some nm =>
    if pyStrip nm = "" then .error "name is required for create action"
    else
      match rt with
      | none => .error "range_type is required for create action"
      | some t =>
        if pyStrip t = "" then .error "range_type is required for create action"
        else if !(VALID_RANGE_TYPES.contains (pyStrip t)) then
          .error ("Invalid range_type: " ++ t)
        else
          match rs with
          | none => .error "range_start is required for create action"
          | some s =>
            if pyStrip s = "" then .error "range_start is required for create action"
            else
              match (if pyStrip t = "IP Network"
                     then validate_cidr s "range_start"
                     else validate_ip_address s "range_start") with
              | .error m => .error m
              | .ok _ =>
                if pyStrip t = "IP Range" then
                  match re with
                  | none => .error "range_end is required for IP Range type"
                  | some e =>
                    if pyStrip e = "" then
                      .error "range_end is required for IP Range type"
                    else
                      match validate_ip_address e "range_end" with
                      | .error m => .error m
                      | .ok _ =>
                        match validate_ip_range (pyStrip s) (pyStrip e) with
                        | .error m => .error m
                        | .ok _ =>
                          .ok [("name", pyStrip nm), ("type", pyStrip t),
                               ("range_start", pyStrip s),
                               ("range_end", pyStrip e),
                               ("active", "true"), ("include", "true")]
                else
                  .ok ([("name", pyStrip nm), ("type", pyStrip t),
                        ("range_start", pyStrip s)] ++
                       (match re with
                        | some e =>
                          if pyStrip e = "" then [] else [("range_end", pyStrip e)]
                        | none => []) ++
                       [("active", "true"), ("include", "true")])

/-- The requests `_action_create` issues: none when validation raises, one
`POST` to `discovery_range` otherwise. -/
def action_create_requests (name rt rs re : Option String) : List Request :=
  match action_create_validate name rt rs re with
  | .error _ => []
  | .ok body => [.postReq "discovery_range" body]

/-- C8: on `manage_discovery_ranges` with range_type "IP Range", a
range_end whose numeric value is below range_start fails with a message
containing "must be >=", addresses of different families fail with a family
mismatch, and a well-ordered same-family pair passes the range-order
validation; for create, these failures happen before any network request
(the request list stays empty), while a valid range issues the POST. -/
theorem C8_range_validation (s e : String) (a b : IPAddr)
    (hs : ip_address? s = some a) (he : ip_address? e = some b) :
    (sameFamily a b = true → addrVal a ≤ addrVal b →
      validate_ip_range s e = .ok ()) ∧
    (sameFamily a b = true → addrVal b < addrVal a →
      validate_ip_range s e =
        .error ("Range end (" ++ e ++ ") must be >= range start (" ++ s ++ ")")) ∧
    (sameFamily a b = false →
      validate_ip_range s e =
        .error ("IP address family mismatch: start=" ++ s ++ " vs end=" ++ e)) ∧
    (action_validate (some "IP Range") (some "10.0.0.254") (some "10.0.0.1") =
      ⟨false, ["Range end (10.0.0.1) must be >= range start (10.0.0.254)"],
        some "VALIDATION_ERROR"⟩ ∧
      strContains "Range end (10.0.0.1) must be >= range start (10.0.0.254)"
        "must be >=" = true) ∧
    action_validate (some "IP Range") (some "10.0.0.1") (some "::1") =
      ⟨false, ["IP address family mismatch: start=10.0.0.1 vs end=::1"],
        some "VALIDATION_ERROR"⟩ ∧
    action_validate (some "IP Range") (some "10.0.0.1") (some "10.0.0.254") =
      ⟨true, [], none⟩ ∧
    action_create_validate (some "r1") (some "IP Range") (some "10.0.0.254")
        (some "10.0.0.1") =
      .error "Range end (10.0.0.1) must be >= range start (10.0.0.254)" ∧
    action_create_requests (some "r1") (some "IP Range") (some "10.0.0.254")
        (some "10.0.0.1") = [] ∧
    action_create_requests (some "r1") (some "IP Range") (some "10.0.0.1")
        (some "10.0.0.254") =
      [.postReq "discovery_range"
        [("name", "r1"), ("type", "IP Range"), ("range_start", "10.0.0.1"),
         ("range_end", "10.0.0.254"), ("active", "true"), ("include", "true")]] := by
  have base : validate_ip_range s e =
      (if sameFamily a b = false then
        .error ("IP address family mismatch: start=" ++ s ++ " vs end=" ++ e)
      else if addrVal b < addrVal a then
        .error ("Range end (" ++ e ++ ") must be >= range start (" ++ s ++ ")")
      else .ok ()) := by
    unfold validate_ip_range
    rw [hs, he]
  refine ⟨?_, ?_, ?_, ⟨by decide, by decide⟩, by decide, by decide, by rfl,
    by decide, by decide⟩
  · intro hf hle
    rw [base, if_neg (by simp [hf]), if_neg (by omega)]
  · intro hf hlt
    rw [base, if_neg (by simp [hf]), if_pos hlt]
  · intro hf
    rw [base, if_pos hf]

/-- Witness for C8 at the spec's concrete addresses: a well-ordered pair
passes, a reversed pair fails with the "must be >=" message, and a
v4-versus-v6 pair fails with the family mismatch. -/
theorem C8_range_validation_witness :
    validate_ip_range "10.0.0.1" "10.0.0.254" = .ok () ∧
    validate_ip_range "10.0.0.254" "10.0.0.1" =
      .error ("Range end (" ++ "10.0.0.1" ++ ") must be >= range start ("
        ++ "10.0.0.254" ++ ")") ∧
    validate_ip_range "10.0.0.1" "::1" =
      .error ("IP address family mismatch: start=" ++ "10.0.0.1" ++ " vs end="
        ++ "::1") :=
  ⟨(C8_range_validation "10.0.0.1" "10.0.0.254" (.v4 167772161) (.v4 167772414)
      (by decide) (by decide)).1 (by decide) (by decide),
   (C8_range_validation "10.0.0.254" "10.0.0.1" (.v4 167772414) (.v4 167772161)
      (by decide) (by decide)).2.1 (by decide) (by decide),
   (C8_range_validation "10.0.0.1" "::1" (.v4 167772161) (.v6 1)
      (by decide) (by decide)).2.2.1 (by decide)⟩

/-! ### C9 — record identifier validation
Source: `_validate_sys_id` (identical copies in `tools/analysis.py`,
`tools/credentials.py`, `tools/compare.py`, `tools/ranges.py`) and the
dispatch of `manage_discovery_credentials`. -/

/-- The regex `^[0-9a-fA-F]{32}$` as a Boolean test. -/
def isValidSysId (s : String) : Bool :=
  (s.toList.length == 32) && s.toList.all isHexChar

/-- Translation of `_validate_sys_id`: missing or blank raises "required",
then the input is stripped and matched against the 32-hex pattern. -/
def validate_sys_id (sysId : Option String) (label : String) :
    Except String String :=
  match sysId with
  | none => .error (label ++ " is required for this action")
  | some s =>
    if pyStrip s = "" then .error (label ++ " is required for this action")
    else if isValidSysId (pyStrip s) then .ok (pyStrip s)
    else .error ("Invalid " ++ label ++
      " format. Expected a 32-character hexadecimal string.")

/-- The envelope fragment a tool returns: success flag, message, error
code. -/
structure Envelope where
  success : Bool
  message : String
  error : Option String
deriving DecidableEq, Repr

/-- Translation of the get-action path of `manage_discovery_credentials`:
`_validate_sys_id` runs first and a `ValueError` is turned into the
`VALIDATION_ERROR` envelope with no request issued; on success the record
fetch is the single GET issued by `_action_get` (whose response-shaping is
covered by `credReturnedRecord`; the success message is abbreviated). -/
def manage_credentials_get (sysId : Option String) : Envelope × List Request :=
  match validate_sys_id sysId "sys_id" with
  | .error m => (⟨false, m, some "VALIDATION_ERROR"⟩, [])
  | .ok v =>
    (⟨true, "Retrieved credential " ++ v, none⟩,
      [.getReq "discovery_credential" (some v)])

/-- A 32-hex identifier padded with a leading blank: not itself a
32-character hexadecimal string, yet accepted after the strip. -/
def paddedSysId : String := " a1b2c3d4e5f6a7b8c9d0e1f2a3b4c5d6"

theorem hexChar_not_space (c : Char) (h : isHexChar c = true) :
    pyIsSpace c = false := by
  cases hsp : pyIsSpace c
  · rfl
  · exfalso
    have h6 : c = ' ' ∨ c = '\t' ∨ c = '\n' ∨ c = '\r' ∨ c = '\x0b' ∨ c = '\x0c' := by
      simpa [pyIsSpace, or_assoc] using hsp
    rcases h6 with rfl | rfl | rfl | rfl | rfl | rfl <;> revert h <;> decide

theorem dropLeadingSpace_of_nospace (l : List Char)
    (h : ∀ c ∈ l, pyIsSpace c = false) : dropLeadingSpace l = l := by
  cases l with
  | nil => rfl
  | cons c cs =>
    unfold dropLeadingSpace
    rw [if_neg (by simp [h c (List.mem_cons_self c cs)])]

theorem pyStrip_of_nospace (s : String)
    (h : ∀ c ∈ s.toList, pyIsSpace c = false) : pyStrip s = s := by
  unfold pyStrip
  rw [dropLeadingSpace_of_nospace _ (fun c hc => h c (List.mem_reverse.mp hc)),
    List.reverse_reverse, dropLeadingSpace_of_nospace _ h]
  obtain ⟨data⟩ := s
  rfl

/-- C9 counterexample: a whitespace-padded identifier is not a 32-character
hexadecimal string, yet the validation accepts it after stripping and an
HTTP request is issued, so the claim's "every identifier that is not a
32-character hexadecimal string fails" is false. -/
theorem C9_counterexample :
    isValidSysId paddedSysId = false ∧
    (manage_credentials_get (some paddedSysId)).1.success = true ∧
    (manage_credentials_get (some paddedSysId)).2 ≠ [] := by
  refine ⟨by decide, by decide, by decide⟩

/-- C9 amended: a missing identifier, or one whose stripped form is empty or
not a 32-character hexadecimal string, produces the envelope with
success = false and error = VALIDATION_ERROR and no HTTP request; every
identifier whose stripped form is a 32-character hexadecimal string passes
validation — in particular every plain 32-hex identifier does, since
stripping leaves it unchanged. -/
theorem C9_sys_id_validation (sysId : Option String) (s : String) :
    manage_credentials_get none =
      (⟨false, "sys_id is required for this action",
        some "VALIDATION_ERROR"⟩, []) ∧
    (sysId = some s → pyStrip s = "" →
      manage_credentials_get sysId =
        (⟨false, "sys_id is required for this action",
          some "VALIDATION_ERROR"⟩, [])) ∧
    (sysId = some s → pyStrip s ≠ "" → isValidSysId (pyStrip s) = false →
      manage_credentials_get sysId =
        (⟨false, "Invalid sys_id format. Expected a 32-character hexadecimal string.",
          some "VALIDATION_ERROR"⟩, [])) ∧
    (s.toList.length = 32 → (∀ c ∈ s.toList, isHexChar c = true) →
      validate_sys_id (some s) "sys_id" = .ok s) := by
  have vsome : ∀ s' label : String, validate_sys_id (some s') label =
      (if pyStrip s' = "" then .error (label ++ " is required for this action")
       else if isValidSysId (pyStrip s') then .ok (pyStrip s')
       else .error ("Invalid " ++ label ++
         " format. Expected a 32-character hexadecimal string.")) :=
    fun _ _ => rfl
  refine ⟨rfl, ?_, ?_, ?_⟩
  · rintro rfl hblank
    have hv : validate_sys_id (some s) "sys_id" =
        .error "sys_id is required for this action" := by
      rw [vsome, if_pos hblank]
      exact congrArg Except.error (by decide)
    unfold manage_credentials_get
    rw [hv]
  · rintro rfl hne hbad
    have hv : validate_sys_id (some s) "sys_id" =
        .error "Invalid sys_id format. Expected a 32-character hexadecimal string." := by
      rw [vsome, if_neg hne, if_neg (by simp [hbad])]
      exact congrArg Except.error (by decide)
    unfold manage_credentials_get
    rw [hv]
  · intro hlen hhex
    have hns : ∀ c ∈ s.toList, pyIsSpace c = false :=
      fun c hc => hexChar_not_space c (hhex c hc)
    have hps : pyStrip s = s := pyStrip_of_nospace s hns
    have hne : s ≠ "" := by
      intro hempty
      subst hempty
      simp at hlen
    rw [vsome, hps, if_neg hne, if_pos (by
      simp only [isValidSysId, Bool.and_eq_true, beq_iff_eq, List.all_eq_true]
      exact ⟨hlen, hhex⟩)]

/-- Witness for C9 amended: a valid 32-hex identifier passes, and a
malformed identifier yields the VALIDATION_ERROR envelope with no request
issued. -/
theorem C9_sys_id_validation_witness :
    validate_sys_id (some "a1b2c3d4e5f6a7b8c9d0e1f2a3b4c5d6") "sys_id" =
      .ok "a1b2c3d4e5f6a7b8c9d0e1f2a3b4c5d6" ∧
    manage_credentials_get (some "zz") =
      (⟨false, "Invalid sys_id format. Expected a 32-character hexadecimal string.",
        some "VALIDATION_ERROR"⟩, []) :=
  ⟨(C9_sys_id_validation (some "a1b2c3d4e5f6a7b8c9d0e1f2a3b4c5d6")
      "a1b2c3d4e5f6a7b8c9d0e1f2a3b4c5d6").2.2.2 (by decide) (by decide),
   (C9_sys_id_validation (some "zz") "zz").2.2.1 rfl (by decide) (by decide)⟩

/-! ### C10 — query_table always returns a list
Source: `_extract_result` and `query_table` in
`src/snow_discovery_agent/client.py`. -/

/-- A JSON value as parsed from a response body. -/
inductive Json where
  | null
  | bool (b : Bool)
  | num (n : Int)
  | str (s : String)
  | arr (items : List Json)
  | obj (fields : List (String × Json))

/-- The Python exception escaping `_extract_result` when the parsed body is
not a dict: `body.get` does not exist on lists, strings, numbers or None. -/
inductive PyErr where
  | attributeError
deriving DecidableEq, Repr

/-- Dict lookup on JSON object fields (first entry wins). -/
def lookupJson (fields : List (String × Json)) (k : String) : Option Json :=
  match fields with
  | [] => none
  | (k₀, v) :: rest => if k₀ = k then some v else lookupJson rest k

/-- Translation of `_extract_result` on an already-parsed JSON body:
`body.get("result", body)` returns the `result` value when the key is
present (even when it is null), the whole body otherwise — but only a dict
has `.get`, so any other body raises `AttributeError`. -/
def extract_result (body : Json) : Except PyErr Json :=
  match body with
  | .obj fields =>
    .ok (match lookupJson fields "result" with
         | some v => v
         | none => .obj fields)
  | _ => .error .attributeError

/-- Translation of the tail of `query_table`: the unwrapped result is
returned when it is a list, else the empty list. -/
def query_table_result (body : Json) : Except PyErr (List Json) :=
  match extract_result body with
  | .error e => .error e
  | .ok (.arr items) => .ok items
  | .ok _ => .ok []

/-- C10 counterexample: a response whose body is a top-level JSON array has
an unwrapped result that is a list, yet `query_table` raises
`AttributeError` from `body.get` instead of returning that list (or any
list). -/
theorem C10_counterexample :
    query_table_result (.arr [.obj []]) = .error .attributeError ∧
    query_table_result (.arr [.obj []]) ≠ .ok [.obj []] := by
  refine ⟨rfl, ?_⟩
  intro h
  rw [show query_table_result (.arr [.obj []]) = .error .attributeError from rfl]
    at h
  exact Except.noConfusion h

/-- C10 amended: for every JSON-object response body, `query_table` returns
the unwrapped result when it is a list and the empty list when it is any
other JSON value (a dict, a string, a number, null, or a missing `result`
key, in which case the object itself is the unwrap); but for a non-object
body the call raises `AttributeError` rather than returning a list. -/
theorem C10_query_table (fields : List (String × Json)) (items : List Json)
    (v body : Json) :
    (lookupJson fields "result" = some (.arr items) →
      query_table_result (.obj fields) = .ok items) ∧
    (lookupJson fields "result" = some v → (∀ l, v ≠ .arr l) →
      query_table_result (.obj fields) = .ok []) ∧
    (lookupJson fields "result" = none →
      query_table_result (.obj fields) = .ok []) ∧
    ((∀ fs, body ≠ .obj fs) →
      query_table_result body = .error .attributeError) := by
  have base : ∀ fs : List (String × Json), query_table_result (.obj fs) =
      (match (match lookupJson fs "result" with
              | some w => w
              | none => .obj fs) with
       | .arr l => .ok l
       | _ => .ok []) := by
    intro fs
    have h1 : extract_result (.obj fs) =
        .ok (match lookupJson fs "result" with
             | some w => w
             | none => .obj fs) := rfl
    unfold query_table_result
    rw [h1]
    cases lookupJson fs "result" with
    | none => rfl
    | some w => cases w <;> rfl
  refine ⟨?_, ?_, ?_, ?_⟩
  · intro h
    rw [base, h]
  · intro h hv
    rw [base, h]
    cases v with
    | arr l => exact absurd rfl (hv l)
    | null => rfl
    | bool b => rfl
    | num n => rfl
    | str s => rfl
    | obj fs => rfl
  · intro h
    rw [base, h]
  · intro h
    cases body with
    | obj fs => exact absurd rfl (h fs)
    | null => rfl
    | bool b => rfl
    | num n => rfl
    | str s => rfl
    | arr l => rfl

/-- Witness for C10 amended: a result envelope holding a list is returned
as-is, a dict-valued result yields the empty list, and a top-level string
body raises. -/
theorem C10_query_table_witness :
    query_table_result (.obj [("result", .arr [.num 1, .num 2])]) =
      .ok [.num 1, .num 2] ∧
    query_table_result (.obj [("result", .obj [("sys_id", .str "x")])]) =
      .ok [] ∧
    query_table_result (.str "oops") = .error .attributeError :=
  ⟨(C10_query_table [("result", .arr [.num 1, .num 2])] [.num 1, .num 2]
      .null (.str "oops")).1 rfl,
   (C10_query_table [("result", .obj [("sys_id", .str "x")])] []
      (.obj [("sys_id", .str "x")]) (.str "oops")).2.1 rfl
      (fun _ h => Json.noConfusion h),
   (C10_query_table [] [] .null (.str "oops")).2.2.2
      (fun _ h => Json.noConfusion h)⟩

end SnowDiscoveryAgent
